import Mathlib

/-!
Shallow embedding of the grocery demand-forecasting and waste-reduction
backend: the pricing agents (`backend/agents/pricing_agent.py`,
`backend/agents/pricing_inventory_agent.py`), the data-access analytics
(`backend/database.py`), the inventory-aware order recommender
(`backend/src/inventory_aware_predictor.py`) and the weather fallback
(`backend/weather_service.py`).

Numbers that the Python code handles as ints/floats are embedded as
`Int`/`Rat`; data read from the database or external services (the sales of the day, the forecast value, hours to expiry, the inventory snapshot, the
reasoning-service response) appears as an explicit argument of the
function embedding the method that consumes it.
-/

/-- The Python built-in `round` (banker rounding, ndigits = 0 or None):
round half to even. -/
def pyRound (q : ℚ) : ℤ :=
  let f : ℤ := ⌊q⌋
  let frac : ℚ := q - f
  if frac < 1/2 then f
  else if frac > 1/2 then f + 1
  else if f % 2 = 0 then f else f + 1

/-- The Python `round(x, 1)`: banker rounding at one decimal place. -/
def pyRound1 (q : ℚ) : ℚ := (pyRound (q * 10) : ℚ) / 10

namespace PricingAgent

/-- Source `PricingAgent._calculate_optimal_discount`:
`base_discount = (1 - performance) * 50`;
`urgency_factor = max(0, (48 - hours_to_expiry) / 48) * 20`;
returns `min(round(base_discount + urgency_factor, 0), 50)`. -/
def calculate_optimal_discount (performance hours_to_expiry : ℚ) : ℚ :=
  let base_discount := (1 - performance) * 50
  let urgency_factor := max 0 ((48 - hours_to_expiry) / 48) * 20
  min (pyRound (base_discount + urgency_factor) : ℚ) 50

/-- The decision part of `PricingAgent.analyze`. `actual_sales`,
`predicted_sales` and `hours_to_expiry` are the values the method reads
from the database; the embedding returns the `(recommendation,
recommended_discount)` pair of the result dict.
`performance = actual_sales / predicted_sales if predicted_sales > 0 else 1.0`;
branches: `performance < 0.6 and hours_to_expiry < 48` -> discount;
`performance > 0.9` -> no_action; otherwise monitor. -/
def analyze (actual_sales predicted_sales hours_to_expiry : ℚ) : String × ℚ :=
  let performance := if predicted_sales > 0 then actual_sales / predicted_sales else 1
  if performance < 6/10 ∧ hours_to_expiry < 48 then
    ("discount", calculate_optimal_discount performance hours_to_expiry)
  else if performance > 9/10 then
    ("no_action", 0)
  else
    ("monitor", 0)

end PricingAgent

namespace Database

/-- The waste-rate computation of `Database.get_discount_recommendation`:
`waste_rate = total_wasted / (total_sold + total_wasted) * 100` when the
denominator is positive, else `0`. -/
def guardedWasteRate (total_sold total_wasted : ℚ) : ℚ :=
  if total_sold + total_wasted > 0 then
    total_wasted / (total_sold + total_wasted) * 100
  else 0

/-- The performance computation of `Database.get_discount_recommendation`:
`performance = actual_today / predicted_today * 100 if predicted_today > 0
else 100`, and `100` when the prediction call returned an error (no
prediction available). -/
def performancePct (actual_today : ℚ) (predicted_today : Option ℚ) : ℚ :=
  match predicted_today with
  | none => 100
  | some p => if p > 0 then actual_today / p * 100 else 100

/-- The decision core of `Database.get_discount_recommendation`:
`needs_discount = waste_rate > 15 or performance < 70`; tiers
`waste_rate > 25 -> (30, high)`, `waste_rate > 15 -> (20, medium)`,
else `(15, low)`; `(0, none)` when no discount is needed.
Returns `(needs_discount, urgency, discount)`. -/
def discountDecision (waste_rate performance : ℚ) : Bool × String × ℚ :=
  let needs_discount := waste_rate > 15 ∨ performance < 70
  if needs_discount then
    if waste_rate > 25 then (true, "high", 30)
    else if waste_rate > 15 then (true, "medium", 20)
    else (true, "low", 15)
  else (false, "none", 0)

/-- Result fields of `Database.get_discount_recommendation` used by the
claims. -/
structure DiscountRec where
  needs_discount : Bool
  recommended_discount_pct : ℚ
  urgency : String
  waste_rate_pct : ℚ
  performance_vs_prediction_pct : ℚ
  deriving Repr, DecidableEq

/-- The window `latest = self.sales_df[...].tail(days)`: the last `n`
elements of the records of the product in date order. -/
def takeLast {α : Type} (n : ℕ) (l : List α) : List α := l.drop (l.length - n)

/-- Source `Database.get_discount_recommendation`, embedded over the
sales records of the product (`(items_sold, items_wasted)` pairs in date order) and the
1-day-ahead prediction (`none` when `get_prophet_prediction` returned an
error). Returns `none` for the `"error": no recent data` dict. -/
def get_discount_recommendation (records : List (ℤ × ℤ))
    (predicted_today : Option ℚ) : Option DiscountRec :=
  let latest := takeLast 7 records
  match latest.getLast? with
  | none => none
  | some lastRow =>
    let total_sold : ℚ := ((latest.map Prod.fst).sum : ℤ)
    let total_wasted : ℚ := ((latest.map Prod.snd).sum : ℤ)
    let waste_rate := guardedWasteRate total_sold total_wasted
    let performance := performancePct (lastRow.1 : ℚ) predicted_today
    let (nd, urg, disc) := discountDecision waste_rate performance
    some { needs_discount := nd
           recommended_discount_pct := disc
           urgency := urg
           waste_rate_pct := pyRound1 waste_rate
           performance_vs_prediction_pct := pyRound1 performance }

/-- The waste-rate statistic of `Database.get_sales_trend`. The source
divides with no zero guard; the sums are numpy integers, whose division
yields NaN (not an exception) when the denominator is 0. `none` embeds
that NaN. -/
def salesTrendWasteRate (records : List (ℤ × ℤ)) (days : ℕ) : Option ℚ :=
  let window := takeLast days records
  let total_sold : ℚ := ((window.map Prod.fst).sum : ℤ)
  let total_wasted : ℚ := ((window.map Prod.snd).sum : ℤ)
  if total_sold + total_wasted = 0 then none
  else some (total_wasted / (total_sold + total_wasted) * 100)

end Database

namespace InventoryAwarePredictor

/-- One entry of the `inventory_data` list. `days_to_exp` is the integer
`(expiration_date - current_date).days` the source computes from the
date string of the batch and the snapshot time. -/
structure Batch where
  product : String
  batch : String
  days_to_exp : ℤ
  quantity : ℤ
  deriving Repr, DecidableEq

/-- One batch entry of the `batches` list of a product in the summary. -/
structure BatchInfo where
  batch : String
  quantity : ℤ
  days_to_exp : ℤ
  deriving Repr, DecidableEq

/-- The per-product record of `get_inventory_summary`. -/
structure ProductSummary where
  total_quantity : ℤ
  expiring_soon : ℤ
  expiring_warning : ℤ
  expiring_good : ℤ
  expired : ℤ
  batches : List BatchInfo
  deriving Repr, DecidableEq

/-- The fresh record a product gets on first sight (all counters 0). -/
def emptySummary : ProductSummary :=
  { total_quantity := 0, expiring_soon := 0, expiring_warning := 0
    expiring_good := 0, expired := 0, batches := [] }

/-- One loop iteration of `get_inventory_summary`: add the quantity of
the batch to the total, append it to `batches`, and add its quantity to
exactly one expiry bucket (`days_to_exp < 0` expired, `<= 5` soon,
`<= 14` warning, else good). -/
def addBatch (s : ProductSummary) (b : Batch) : ProductSummary :=
  let s := { s with
    total_quantity := s.total_quantity + b.quantity
    batches := s.batches ++
      [({ batch := b.batch, quantity := b.quantity, days_to_exp := b.days_to_exp } : BatchInfo)] }
  if b.days_to_exp < 0 then { s with expired := s.expired + b.quantity }
  else if b.days_to_exp ≤ 5 then { s with expiring_soon := s.expiring_soon + b.quantity }
  else if b.days_to_exp ≤ 14 then { s with expiring_warning := s.expiring_warning + b.quantity }
  else { s with expiring_good := s.expiring_good + b.quantity }

/-- Update of the summary dict by one batch, keeping dict insertion
order: the first occurrence of a product creates its entry. -/
def updateSummary : List (String × ProductSummary) → Batch → List (String × ProductSummary)
  | [], b => [(b.product, addBatch emptySummary b)]
  | (k, v) :: rest, b =>
    if k = b.product then (k, addBatch v b) :: rest
    else (k, v) :: updateSummary rest b

/-- Source `InventoryAwarePredictor.get_inventory_summary`: fold the inventory
list into a product-keyed summary dict. -/
def get_inventory_summary (inventory_data : List Batch) : List (String × ProductSummary) :=
  inventory_data.foldl updateSummary []

/-- Dict lookup `product in summary` / `summary[product]`. -/
def findSummary (summary : List (String × ProductSummary)) (product : String) :
    Option ProductSummary :=
  match summary with
  | [] => none
  | (k, v) :: rest => if k = product then some v else findSummary rest product

/-- The result dict of `calculate_optimal_order_quantity`. Fields absent
from the no-inventory early return are `Option`s. -/
structure OrderRec where
  product : String
  recommended_order : ℤ
  confidence : String
  reason : String
  current_inventory : Option ℤ := none
  expiring_soon : Option ℤ := none
  predicted_demand : Option ℚ := none
  days_of_inventory : Option ℚ := none
  waste_risk : Option ℚ := none
  order_priority : Option String := none
  deriving Repr, DecidableEq

/-- Source `InventoryAwarePredictor._get_order_priority`. -/
def get_order_priority (days_of_inventory waste_risk : ℚ) : String :=
  if days_of_inventory < 3 then "URGENT"
  else if days_of_inventory < 7 ∨ waste_risk > 10 then "HIGH"
  else if days_of_inventory < 14 then "MEDIUM"
  else "LOW"

/-- Source `InventoryAwarePredictor.calculate_optimal_order_quantity`. The
source divides by `days_ahead`, so callers pass `days_ahead > 0`;
`recommended_order` in the result dict is `round(recommended_order)`
(Python banker rounding), `days_of_inventory` and `waste_risk` are
rounded to one decimal. -/
def calculate_optimal_order_quantity (inventory_data : List Batch)
    (product : String) (predicted_demand : List ℚ) (days_ahead : ℕ) : OrderRec :=
  let inventory_summary := get_inventory_summary inventory_data
  match findSummary inventory_summary product with
  | none =>
    { product := product, recommended_order := 0, confidence := "low"
      reason := "No current inventory data" }
  | some current_inventory =>
    let total_current : ℚ := current_inventory.total_quantity
    let expiring_soon : ℚ := current_inventory.expiring_soon
    let total_demand := (predicted_demand.take days_ahead).sum
    let avg_daily_demand := total_demand / (days_ahead : ℚ)
    let days_of_inventory :=
      if avg_daily_demand > 0 then total_current / avg_daily_demand else 999
    let waste_risk := max 0 (expiring_soon - avg_daily_demand * 5)
    let step :=
      if days_of_inventory < 3 then
        (max 0 (total_demand - total_current + avg_daily_demand * 2), "high",
         "Critical stock level - immediate order needed")
      else if days_of_inventory < 7 then
        (max 0 (total_demand - total_current + avg_daily_demand * 3), "high",
         "Low stock level - order recommended")
      else if waste_risk > avg_daily_demand then
        (max 0 (total_demand - total_current), "medium",
         "High waste risk - order only if needed")
      else if days_of_inventory > 14 then
        ((0 : ℚ), "high", "Overstocked - no order needed")
      else
        (max 0 (total_demand - total_current + avg_daily_demand * 2), "medium",
         "Normal stock level - standard order")
    let adjusted :=
      if waste_risk > avg_daily_demand * 2 then
        (step.1 * (7/10), step.2.2 ++ " (reduced due to waste risk)")
      else (step.1, step.2.2)
    { product := product
      recommended_order := pyRound adjusted.1
      confidence := step.2.1
      reason := adjusted.2
      current_inventory := some current_inventory.total_quantity
      expiring_soon := some current_inventory.expiring_soon
      predicted_demand := some total_demand
      days_of_inventory := some (pyRound1 days_of_inventory)
      waste_risk := some (pyRound1 waste_risk)
      order_priority := some (get_order_priority days_of_inventory waste_risk) }

end InventoryAwarePredictor

namespace PricingInventoryAgent

/-- The structured pricing decision of the declared response schema. -/
structure Decision where
  needs_discount : Bool
  urgency : String
  recommended_discount_pct : ℚ
  reasoning : String
  deriving Repr, DecidableEq

/-- The dict `GeminiClient.generate` hands back for a pricing request:
either it carries an `"error"` key (request failure, missing field in the
API envelope, or response text that is not valid JSON), or it is the
parsed JSON object, whose fields may or may not be present — the client
performs no schema validation on parsed JSON. -/
structure GeminiResult where
  error : Option String
  needs_discount : Option Bool
  urgency : Option String
  recommended_discount_pct : Option ℚ
  reasoning : Option String
  deriving Repr, DecidableEq

/-- Source `PricingInventoryAgent._fallback_pricing_logic` (its `quantity` and
`waste_stats` arguments are unused by the source body). -/
def fallback_pricing_logic (days_until_expiry : ℤ) (quantity : ℤ) (waste_rate : ℚ) :
    Decision :=
  if days_until_expiry ≤ 2 then
    { needs_discount := true, urgency := "high", recommended_discount_pct := 30
      reasoning := "Expires in 2 days - urgent discount needed" }
  else if days_until_expiry ≤ 4 then
    { needs_discount := true, urgency := "medium", recommended_discount_pct := 20
      reasoning := "Approaching expiration - moderate discount recommended" }
  else
    { needs_discount := false, urgency := "none", recommended_discount_pct := 0
      reasoning := "Sufficient time before expiration" }

/-- The decision part of `PricingInventoryAgent.analyze`: if the Gemini
result dict has an `"error"` key, substitute the rule-based fallback;
otherwise read the schema fields from the dict — a missing key raises
`KeyError` (embedded as `Except.error`), which propagates out of
`analyze`. -/
def analyzeDecision (days_until_expiry : ℤ) (quantity : ℤ) (waste_rate : ℚ)
    (gemini : GeminiResult) : Except String Decision :=
  if gemini.error.isSome then
    Except.ok (fallback_pricing_logic days_until_expiry quantity waste_rate)
  else
    match gemini.needs_discount with
    | none => Except.error "KeyError: needs_discount"
    | some nd =>
      match gemini.urgency with
      | none => Except.error "KeyError: urgency"
      | some u =>
        match gemini.recommended_discount_pct with
        | none => Except.error "KeyError: recommended_discount_pct"
        | some pct =>
          match gemini.reasoning with
          | none => Except.error "KeyError: reasoning"
          | some r =>
            Except.ok { needs_discount := nd, urgency := u
                        recommended_discount_pct := pct, reasoning := r }

end PricingInventoryAgent

namespace Weather

/-- One day of weather data as both the mock generator and the service
produce it (`day`, `temperature`, `precipitation`, `description`). -/
structure WeatherDay where
  day : ℕ
  temperature : ℚ
  precipitation : ℚ
  description : String
  deriving Repr, DecidableEq

/-- The fixed scenario table of `generate_mock_weather_data`. -/
def weather_scenarios : List (String × ℚ × ℚ) :=
  [("Sunny and Hot", 78, 0),
   ("Warm and Clear", 68, 0),
   ("Cool and Rainy", 45, 8/10),
   ("Cold and Dry", 32, 0),
   ("Mild with Light Rain", 55, 2/10),
   ("Hot and Humid", 82, 1/10),
   ("Cold and Snowy", 28, 12/10)]

/-- Source `generate_mock_weather_data(days_ahead)`: day `i` (0-based) uses
scenario `i % 7`, cycling. -/
def generate_mock_weather_data (days_ahead : ℕ) : List WeatherDay :=
  (List.range days_ahead).map fun i =>
    let s := weather_scenarios.getD (i % weather_scenarios.length) ("", 0, 0)
    { day := i + 1, temperature := s.2.1, precipitation := s.2.2, description := s.1 }

/-- Source `WeatherService.get_forecast`: try `_fetch_from_api`; on any
exception return `_generate_mock_forecast(days)` — the random in-service
mock, embedded as an explicit argument since it draws from a RNG. The
method itself never raises. -/
def get_forecast (fetch_result : Except String (List WeatherDay))
    (random_mock : List WeatherDay) : List WeatherDay :=
  match fetch_result with
  | Except.ok days => days
  | Except.error _ => random_mock

/-- The weather-selection step of `Database.get_prophet_prediction`:
call `weather_service.get_forecast`; were it to raise, fall back to
`generate_mock_weather_data` with source `"Mock Data (API unavailable)"`,
else keep its value with source `"OpenWeather API"`. Since
`get_forecast` handles its own failure and returns normally, the except
branch never runs: the embedding returns its value with the live label. -/
def selectWeather (fetch_result : Except String (List WeatherDay))
    (random_mock : List WeatherDay) : List WeatherDay × String :=
  (get_forecast fetch_result random_mock, "OpenWeather API")

end Weather

/-! ## Helper lemmas about Python rounding -/

theorem floor_le_pyRound (q : ℚ) : ⌊q⌋ ≤ pyRound q := by
  simp only [pyRound]
  split_ifs <;> omega

theorem pyRound_le_floor_add_one (q : ℚ) : pyRound q ≤ ⌊q⌋ + 1 := by
  simp only [pyRound]
  split_ifs <;> omega

theorem pyRound_nonneg {q : ℚ} (h : 0 ≤ q) : 0 ≤ pyRound q := by
  have h0 : (0 : ℤ) ≤ ⌊q⌋ := Int.floor_nonneg.mpr h
  have := floor_le_pyRound q
  omega

theorem pyRound_mono {a b : ℚ} (h : a ≤ b) : pyRound a ≤ pyRound b := by
  have hf : ⌊a⌋ ≤ ⌊b⌋ := Int.floor_le_floor h
  rcases lt_or_eq_of_le hf with hlt | heq
  · have h1 := pyRound_le_floor_add_one a
    have h2 := floor_le_pyRound b
    omega
  · simp only [pyRound]
    rw [heq]
    have hd : a - (⌊b⌋ : ℚ) ≤ b - (⌊b⌋ : ℚ) := by linarith
    split_ifs <;> first | omega | linarith

/-! ## Claims -/

/-- C1: Policy A (`PricingAgent.analyze`): for every `actual_sales ≥ 0`,
`predicted_sales` and `hours_to_expiry`, with `performance =
actual_sales / predicted_sales` when `predicted_sales > 0` and `1.0`
otherwise: if `performance < 0.6` and `hours_to_expiry < 48` the
recommendation is `"discount"` with `discount_pct =
min(round((1-performance)*50 + max(0,(48-hours_to_expiry)/48)*20), 50)`;
if `performance > 0.9` the recommendation is `"no_action"` with
discount 0; otherwise `"monitor"` with discount 0. In particular
`performance = 0.5, hours_to_expiry = 24` yields `"discount"` with
`discount_pct = 35`. -/
theorem policyA_decision_correct (actual_sales predicted_sales hours_to_expiry : ℚ)
    (performance : ℚ) (hact : 0 ≤ actual_sales)
    (hperf : performance =
      if predicted_sales > 0 then actual_sales / predicted_sales else 1) :
    (performance < 6/10 ∧ hours_to_expiry < 48 →
      PricingAgent.analyze actual_sales predicted_sales hours_to_expiry =
        ("discount",
          min (pyRound ((1 - performance) * 50 +
            max 0 ((48 - hours_to_expiry) / 48) * 20) : ℚ) 50)) ∧
    (performance > 9/10 →
      PricingAgent.analyze actual_sales predicted_sales hours_to_expiry =
        ("no_action", 0)) ∧
    (¬(performance < 6/10 ∧ hours_to_expiry < 48) → ¬(performance > 9/10) →
      PricingAgent.analyze actual_sales predicted_sales hours_to_expiry =
        ("monitor", 0)) ∧
    (performance = 1/2 → hours_to_expiry = 24 →
      PricingAgent.analyze actual_sales predicted_sales hours_to_expiry =
        ("discount", 35)) := by
  subst hperf
  simp only [PricingAgent.analyze, PricingAgent.calculate_optimal_discount]
  refine ⟨fun h => ?_, fun h => ?_, fun h1 h2 => ?_, fun hp hh => ?_⟩
  · rw [if_pos h]
  · have hn : ¬((if predicted_sales > 0 then actual_sales / predicted_sales else 1)
        < 6/10 ∧ hours_to_expiry < 48) := by
      intro hc
      linarith [hc.1, h]
    rw [if_neg hn, if_pos h]
  · rw [if_neg h1, if_neg h2]
  · rw [if_pos ⟨by rw [hp]; norm_num, by rw [hh]; norm_num⟩, hp, hh]
    norm_num
    have h35 : pyRound 35 = 35 := by
      simp only [pyRound]
      norm_num
    rw [h35]
    norm_num

/-- C1 witness: `actual_sales = 5`, `predicted_sales = 10`,
`hours_to_expiry = 24` realizes `performance = 0.5` and yields
`("discount", 35)`. -/
theorem policyA_decision_correct_witness :
    (0 : ℚ) ≤ 5 ∧
    PricingAgent.analyze 5 10 24 = ("discount", 35) :=
  ⟨by norm_num,
   (policyA_decision_correct 5 10 24 (1/2) (by norm_num) (by norm_num)).2.2.2
     rfl rfl⟩

/-- C2: Policy B (`Database.get_discount_recommendation`): with
`waste_rate_pct` the trailing-7-day waste rate and `performance_pct`
the actual for today over the 1-day-ahead forecast times 100 (100 when the
forecast is unavailable or its denominator is not positive):
`needs_discount` holds iff `waste_rate_pct > 15` or
`performance_pct < 70`; when it holds, `waste_rate_pct > 25` gives
(high, 30), `waste_rate_pct > 15` gives (medium, 20), otherwise
(low, 15); when it does not hold, (none, 0). In particular
`waste_rate_pct = 28, performance_pct = 80` yields `needs_discount`,
urgency high, discount 30. -/
theorem policyB_decision_correct (records : List (ℤ × ℤ))
    (predicted_today : Option ℚ) (lastRow : ℤ × ℤ) (w p : ℚ)
    (hlast : (Database.takeLast 7 records).getLast? = some lastRow)
    (hw : w = Database.guardedWasteRate
      (((Database.takeLast 7 records).map Prod.fst).sum : ℤ)
      (((Database.takeLast 7 records).map Prod.snd).sum : ℤ))
    (hp : p = Database.performancePct (lastRow.1 : ℚ) predicted_today) :
    ∃ rec, Database.get_discount_recommendation records predicted_today = some rec ∧
      ((rec.needs_discount = true) ↔ (w > 15 ∨ p < 70)) ∧
      (w > 25 → rec.urgency = "high" ∧ rec.recommended_discount_pct = 30) ∧
      (15 < w → w ≤ 25 → rec.urgency = "medium" ∧ rec.recommended_discount_pct = 20) ∧
      (w ≤ 15 → p < 70 → rec.urgency = "low" ∧ rec.recommended_discount_pct = 15) ∧
      (¬(w > 15 ∨ p < 70) → rec.needs_discount = false ∧ rec.urgency = "none" ∧
        rec.recommended_discount_pct = 0) ∧
      (w = 28 → p = 80 → rec.needs_discount = true ∧ rec.urgency = "high" ∧
        rec.recommended_discount_pct = 30) := by
  simp only [Database.get_discount_recommendation, hlast]
  refine ⟨_, rfl, ?_⟩
  rw [← hw, ← hp]
  simp only [Database.discountDecision]
  refine ⟨?_, fun h25 => ?_, fun h15 h25 => ?_, fun h15 h70 => ?_, fun hn => ?_,
    fun hw28 hp80 => ?_⟩
  · split_ifs with h h1 h2 <;> simp_all
  · rw [if_pos (Or.inl (by linarith)), if_pos h25]
    exact ⟨rfl, rfl⟩
  · rw [if_pos (Or.inl h15), if_neg (by linarith), if_pos h15]
    exact ⟨rfl, rfl⟩
  · rw [if_pos (Or.inr h70), if_neg (by linarith), if_neg (by linarith)]
    exact ⟨rfl, rfl⟩
  · rw [if_neg hn]
    exact ⟨rfl, rfl, rfl⟩
  · rw [if_pos (Or.inl (by rw [hw28]; norm_num)), if_pos (by rw [hw28]; norm_num)]
    exact ⟨rfl, rfl, rfl⟩

/-- C2 witness: one record `(sold 18, wasted 7)` with forecast `22.5`
realizes `waste_rate_pct = 28`, `performance_pct = 80`, and the
recommendation is `needs_discount`, high, 30. -/
theorem policyB_decision_correct_witness :
    (Database.takeLast 7 [((18 : ℤ), (7 : ℤ))]).getLast? = some (18, 7) ∧
    (28 : ℚ) = Database.guardedWasteRate
      (((Database.takeLast 7 [((18 : ℤ), (7 : ℤ))]).map Prod.fst).sum : ℤ)
      (((Database.takeLast 7 [((18 : ℤ), (7 : ℤ))]).map Prod.snd).sum : ℤ) ∧
    (80 : ℚ) = Database.performancePct ((18 : ℤ) : ℚ) (some (45/2)) ∧
    ∃ rec, Database.get_discount_recommendation [((18 : ℤ), (7 : ℤ))] (some (45/2)) =
        some rec ∧
      ((rec.needs_discount = true) ↔ ((28 : ℚ) > 15 ∨ (80 : ℚ) < 70)) ∧
      ((28 : ℚ) > 25 → rec.urgency = "high" ∧ rec.recommended_discount_pct = 30) ∧
      ((15 : ℚ) < 28 → (28 : ℚ) ≤ 25 → rec.urgency = "medium" ∧
        rec.recommended_discount_pct = 20) ∧
      ((28 : ℚ) ≤ 15 → (80 : ℚ) < 70 → rec.urgency = "low" ∧
        rec.recommended_discount_pct = 15) ∧
      (¬((28 : ℚ) > 15 ∨ (80 : ℚ) < 70) → rec.needs_discount = false ∧
        rec.urgency = "none" ∧ rec.recommended_discount_pct = 0) ∧
      ((28 : ℚ) = 28 → (80 : ℚ) = 80 → rec.needs_discount = true ∧
        rec.urgency = "high" ∧ rec.recommended_discount_pct = 30) :=
  ⟨rfl,
   by simp [Database.takeLast, Database.guardedWasteRate]; norm_num,
   by simp [Database.performancePct]; norm_num,
   policyB_decision_correct [((18 : ℤ), (7 : ℤ))] (some (45/2)) (18, 7) 28 80 rfl
     (by simp [Database.takeLast, Database.guardedWasteRate]; norm_num)
     (by simp [Database.performancePct]; norm_num)⟩

/-- C3: order recommender
(`InventoryAwarePredictor.calculate_optimal_order_quantity`): for every
product present in the inventory snapshot, every predicted-demand
sequence and every `days_ahead > 0`, with `total_demand` the sum of the
first `days_ahead` predictions, `avg_daily_demand = total_demand /
days_ahead`, `days_of_inventory = total_current / avg_daily_demand`
(999 when `avg_daily_demand` is not positive) and `waste_risk = max(0,
expiring_soon - avg_daily_demand*5)`: branches in order
`days_of_inventory < 3` (order `max(0, total_demand - total_current +
avg*2)`, high), `< 7` (buffer `avg*3`, high), `waste_risk > avg` (order
`max(0, total_demand - total_current)`, medium), `> 14` (order 0,
high), else the normal band (buffer `avg*2`, medium); if `waste_risk >
avg*2` the order is multiplied by 0.7; the returned quantity is the
Python-rounded result. In particular `days_of_inventory = 20` with
`waste_risk = 0` yields order 0 with the overstocked reason. -/
theorem order_quantity_branches_correct
    (inventory_data : List InventoryAwarePredictor.Batch) (product : String)
    (predicted_demand : List ℚ) (days_ahead : ℕ)
    (ci : InventoryAwarePredictor.ProductSummary)
    (r : InventoryAwarePredictor.OrderRec)
    (tc es td avg doi wr m : ℚ)
    (hd : 0 < days_ahead)
    (hfind : InventoryAwarePredictor.findSummary
      (InventoryAwarePredictor.get_inventory_summary inventory_data) product = some ci)
    (hr : r = InventoryAwarePredictor.calculate_optimal_order_quantity
      inventory_data product predicted_demand days_ahead)
    (htc : tc = (ci.total_quantity : ℚ)) (hes : es = (ci.expiring_soon : ℚ))
    (htd : td = (predicted_demand.take days_ahead).sum)
    (havg : avg = td / (days_ahead : ℚ))
    (hdoi : doi = if avg > 0 then tc / avg else 999)
    (hwr : wr = max 0 (es - avg * 5))
    (hm : m = if wr > avg * 2 then (7 : ℚ)/10 else 1) :
    (doi < 3 →
      r.recommended_order = pyRound (m * max 0 (td - tc + avg * 2)) ∧
      r.confidence = "high") ∧
    (¬(doi < 3) → doi < 7 →
      r.recommended_order = pyRound (m * max 0 (td - tc + avg * 3)) ∧
      r.confidence = "high") ∧
    (¬(doi < 3) → ¬(doi < 7) → wr > avg →
      r.recommended_order = pyRound (m * max 0 (td - tc)) ∧
      r.confidence = "medium") ∧
    (¬(doi < 3) → ¬(doi < 7) → ¬(wr > avg) → doi > 14 →
      r.recommended_order = 0 ∧ r.confidence = "high") ∧
    (¬(doi < 3) → ¬(doi < 7) → ¬(wr > avg) → ¬(doi > 14) →
      r.recommended_order = pyRound (m * max 0 (td - tc + avg * 2)) ∧
      r.confidence = "medium") ∧
    (doi = 20 → wr = 0 →
      r.recommended_order = 0 ∧ r.reason = "Overstocked - no order needed") := by
  subst htc hes htd havg hdoi hwr hm
  subst hr
  simp only [InventoryAwarePredictor.calculate_optimal_order_quantity, hfind]
  have hpy0 : pyRound 0 = 0 := by simp [pyRound]
  refine ⟨fun h1 => ?_, fun h1 h2 => ?_, fun h1 h2 h3 => ?_,
    fun h1 h2 h3 h4 => ?_, fun h1 h2 h3 h4 => ?_, fun hdoi20 hwr0 => ?_⟩
  · rw [if_pos h1]
    refine ⟨?_, rfl⟩
    split_ifs with hmc
    · congr 1; ring
    · congr 1; ring
  · rw [if_neg h1, if_pos h2]
    refine ⟨?_, rfl⟩
    split_ifs with hmc
    · congr 1; ring
    · congr 1; ring
  · rw [if_neg h1, if_neg h2, if_pos h3]
    refine ⟨?_, rfl⟩
    split_ifs with hmc
    · congr 1; ring
    · congr 1; ring
  · rw [if_neg h1, if_neg h2, if_neg h3, if_pos h4]
    refine ⟨?_, rfl⟩
    split_ifs with hmc
    · rw [show (0 : ℚ) * (7/10) = 0 by ring, hpy0]
    · rw [hpy0]
  · rw [if_neg h1, if_neg h2, if_neg h3, if_neg h4]
    refine ⟨?_, rfl⟩
    split_ifs with hmc
    · congr 1; ring
    · congr 1; ring
  · have havg : (predicted_demand.take days_ahead).sum / (days_ahead : ℚ) > 0 := by
      by_contra hn
      rw [if_neg hn] at hdoi20
      norm_num at hdoi20
    rw [if_pos havg] at hdoi20
    rw [if_pos havg, hdoi20, hwr0]
    rw [if_neg (by norm_num : ¬(20 : ℚ) < 3), if_neg (by norm_num : ¬(20 : ℚ) < 7),
      if_neg (by linarith : ¬(0 : ℚ) > (predicted_demand.take days_ahead).sum / (days_ahead : ℚ)),
      if_pos (by norm_num : (20 : ℚ) > 14),
      if_neg (by linarith :
        ¬(0 : ℚ) > (predicted_demand.take days_ahead).sum / (days_ahead : ℚ) * 2)]
    exact ⟨hpy0, rfl⟩

/-- C3 witness: one batch of 100 units 20 days from expiry with a 7-day
demand of 35 realizes `days_of_inventory = 20`, `waste_risk = 0`: order
0, confidence high, overstocked reason. -/
theorem order_quantity_branches_correct_witness :
    0 < 7 ∧
    InventoryAwarePredictor.findSummary
      (InventoryAwarePredictor.get_inventory_summary
        [⟨"Milk", "A", 20, 100⟩]) "Milk" =
      some ⟨100, 0, 0, 100, 0, [⟨"A", 100, 20⟩]⟩ ∧
    ((InventoryAwarePredictor.calculate_optimal_order_quantity
        [⟨"Milk", "A", 20, 100⟩] "Milk" [35] 7).recommended_order = 0 ∧
      (InventoryAwarePredictor.calculate_optimal_order_quantity
        [⟨"Milk", "A", 20, 100⟩] "Milk" [35] 7).reason =
        "Overstocked - no order needed") := by
  refine ⟨by norm_num, by decide, ?_⟩
  have h := order_quantity_branches_correct [⟨"Milk", "A", 20, 100⟩] "Milk" [35] 7
    ⟨100, 0, 0, 100, 0, [⟨"A", 100, 20⟩]⟩
    (InventoryAwarePredictor.calculate_optimal_order_quantity
      [⟨"Milk", "A", 20, 100⟩] "Milk" [35] 7)
    100 0 35 5 20 0 1
    (by norm_num) (by decide) rfl (by norm_num) (by norm_num) (by norm_num)
    (by norm_num) (by norm_num) (by norm_num) (by norm_num)
  exact h.2.2.2.2.2 rfl rfl

/-- C4 counterexample: the claim says every discount decision lies in
`[0, 50]`, including the value passed through from the external
reasoning service; but `PricingInventoryAgent.analyze` returns the
`recommended_discount_pct` of the service unclamped: a schema-conforming
response carrying 75 is returned as 75 > 50. -/
theorem discount_range_counterexample :
    PricingInventoryAgent.analyzeDecision 10 5 0
        ⟨none, some true, some "high", some 75, some "big discount"⟩ =
      Except.ok ⟨true, "high", 75, "big discount"⟩ ∧
    ¬((75 : ℚ) ≤ 50) :=
  ⟨rfl, by norm_num⟩

/-- C4 amended: the Policy A discount on the discount path (`0 ≤
performance < 0.6`, `hours_to_expiry < 48`) lies in `[0, 50]`, and the
`recommended_discount_pct` of the inventory-aware analysis lies in `[0, 50]`
whenever the external reasoning service reported an error (the
deterministic fallback); a structurally complete service response is
passed through unclamped and may lie outside `[0, 50]`. -/
theorem discount_range_amended :
    (∀ performance hours_to_expiry : ℚ, 0 ≤ performance → performance < 6/10 →
      hours_to_expiry < 48 →
      0 ≤ PricingAgent.calculate_optimal_discount performance hours_to_expiry ∧
      PricingAgent.calculate_optimal_discount performance hours_to_expiry ≤ 50) ∧
    (∀ (days_until_expiry quantity : ℤ) (waste_rate : ℚ)
      (gemini : PricingInventoryAgent.GeminiResult), gemini.error.isSome →
      ∃ dec, PricingInventoryAgent.analyzeDecision days_until_expiry quantity
          waste_rate gemini = Except.ok dec ∧
        0 ≤ dec.recommended_discount_pct ∧ dec.recommended_discount_pct ≤ 50) := by
  constructor
  · intro performance hours_to_expiry h0 h6 _h48
    simp only [PricingAgent.calculate_optimal_discount]
    have hbase : (20 : ℚ) ≤ (1 - performance) * 50 := by linarith
    have hurg : (0 : ℚ) ≤ max 0 ((48 - hours_to_expiry) / 48) * 20 := by positivity
    have hsum : (0 : ℚ) ≤ (1 - performance) * 50 +
        max 0 ((48 - hours_to_expiry) / 48) * 20 := by linarith
    have hpr : (0 : ℤ) ≤ pyRound ((1 - performance) * 50 +
        max 0 ((48 - hours_to_expiry) / 48) * 20) := pyRound_nonneg hsum
    constructor
    · refine le_min ?_ (by norm_num)
      exact_mod_cast hpr
    · exact min_le_right _ _
  · intro days_until_expiry quantity waste_rate gemini herr
    refine ⟨PricingInventoryAgent.fallback_pricing_logic days_until_expiry quantity
      waste_rate, ?_, ?_⟩
    · simp only [PricingInventoryAgent.analyzeDecision, if_pos herr]
    · simp only [PricingInventoryAgent.fallback_pricing_logic]
      split_ifs <;> norm_num

/-- C4 amended witness: the Policy A bound at `performance = 0.5`,
`hours_to_expiry = 24`, and the fallback bound for an errored service
response at 5 days to expiry. -/
theorem discount_range_amended_witness :
    ((0 : ℚ) ≤ 1/2 ∧ (1/2 : ℚ) < 6/10 ∧ (24 : ℚ) < 48 ∧
      0 ≤ PricingAgent.calculate_optimal_discount (1/2) 24 ∧
      PricingAgent.calculate_optimal_discount (1/2) 24 ≤ 50) ∧
    ((PricingInventoryAgent.GeminiResult.mk (some "Request failed")
        none none none none).error.isSome ∧
      ∃ dec, PricingInventoryAgent.analyzeDecision 5 10 0
          ⟨some "Request failed", none, none, none, none⟩ = Except.ok dec ∧
        0 ≤ dec.recommended_discount_pct ∧ dec.recommended_discount_pct ≤ 50) :=
  ⟨⟨by norm_num, by norm_num, by norm_num,
    discount_range_amended.1 (1/2) 24 (by norm_num) (by norm_num) (by norm_num)⟩,
   ⟨rfl,
    discount_range_amended.2 5 10 0 ⟨some "Request failed", none, none, none, none⟩
      rfl⟩⟩

/-- C5 counterexample: the claim says every analytics entry point that
computes a waste rate yields 0 when `total_sold + total_wasted = 0`;
but `Database.get_sales_trend` divides with no zero guard, so a window
of one all-zero record yields numpy NaN (embedded as `none`), not 0. -/
theorem waste_rate_counterexample :
    Database.salesTrendWasteRate [((0 : ℤ), (0 : ℤ))] 30 = none ∧
    Database.salesTrendWasteRate [((0 : ℤ), (0 : ℤ))] 30 ≠ some 0 := by
  have h : Database.salesTrendWasteRate [((0 : ℤ), (0 : ℤ))] 30 = none := by
    simp [Database.salesTrendWasteRate, Database.takeLast]
  exact ⟨h, by rw [h]; exact Option.noConfusion⟩

/-- C5 amended: when `total_sold + total_wasted` of the analyzed window
is 0, `Database.get_discount_recommendation` computes `waste_rate_pct =
0` with no division error; the waste-rate statistic of
`Database.get_sales_trend`, which divides unguarded, is undefined (numpy NaN) in that
case. -/
theorem waste_rate_zero_denominator_amended :
    (∀ (records : List (ℤ × ℤ)) (predicted_today : Option ℚ) (lastRow : ℤ × ℤ),
      (Database.takeLast 7 records).getLast? = some lastRow →
      ((Database.takeLast 7 records).map Prod.fst).sum +
        ((Database.takeLast 7 records).map Prod.snd).sum = 0 →
      ∃ rec, Database.get_discount_recommendation records predicted_today = some rec ∧
        rec.waste_rate_pct = 0) ∧
    (∀ (records : List (ℤ × ℤ)) (days : ℕ),
      ((Database.takeLast days records).map Prod.fst).sum +
        ((Database.takeLast days records).map Prod.snd).sum = 0 →
      Database.salesTrendWasteRate records days = none) := by
  constructor
  · intro records predicted_today lastRow hlast hzero
    simp only [Database.get_discount_recommendation, hlast]
    refine ⟨_, rfl, ?_⟩
    have hq : (((Database.takeLast 7 records).map Prod.fst).sum : ℚ) +
        (((Database.takeLast 7 records).map Prod.snd).sum : ℚ) = 0 := by
      exact_mod_cast congrArg (fun z : ℤ => (z : ℚ)) hzero
    simp only [Database.guardedWasteRate]
    rw [if_neg (by rw [hq]; norm_num)]
    simp [pyRound1, pyRound]
  · intro records days hzero
    have hq : (((Database.takeLast days records).map Prod.fst).sum : ℚ) +
        (((Database.takeLast days records).map Prod.snd).sum : ℚ) = 0 := by
      exact_mod_cast congrArg (fun z : ℤ => (z : ℚ)) hzero
    simp only [Database.salesTrendWasteRate]
    rw [if_pos hq]

/-- C5 amended witness: seven all-zero records. -/
theorem waste_rate_zero_denominator_amended_witness :
    ((Database.takeLast 7 [((0 : ℤ), (0 : ℤ))]).getLast? = some (0, 0) ∧
      ((Database.takeLast 7 [((0 : ℤ), (0 : ℤ))]).map Prod.fst).sum +
        ((Database.takeLast 7 [((0 : ℤ), (0 : ℤ))]).map Prod.snd).sum = 0 ∧
      ∃ rec, Database.get_discount_recommendation [((0 : ℤ), (0 : ℤ))] none =
          some rec ∧ rec.waste_rate_pct = 0) ∧
    Database.salesTrendWasteRate [((0 : ℤ), (0 : ℤ))] 30 = none :=
  ⟨⟨rfl, by decide,
    waste_rate_zero_denominator_amended.1 [((0 : ℤ), (0 : ℤ))] none (0, 0)
      rfl (by decide)⟩,
   waste_rate_zero_denominator_amended.2 [((0 : ℤ), (0 : ℤ))] 30 (by decide)⟩

/-- Orders from a zero-inventory snapshot: with the product present but
holding 0 units (so `expiring_soon = 0` as well), a positive demand
total `t` over `days_ahead = d` yields `round(t*(d+2)/d)` through the
critical-stock branch, and a non-positive total yields 0. -/
theorem zero_inventory_order_closed_form
    (inventory_data : List InventoryAwarePredictor.Batch) (product : String)
    (predicted_demand : List ℚ) (days_ahead : ℕ)
    (ci : InventoryAwarePredictor.ProductSummary)
    (hd : 0 < days_ahead)
    (hfind : InventoryAwarePredictor.findSummary
      (InventoryAwarePredictor.get_inventory_summary inventory_data) product = some ci)
    (htc : ci.total_quantity = 0) (hes : ci.expiring_soon = 0) :
    (InventoryAwarePredictor.calculate_optimal_order_quantity
        inventory_data product predicted_demand days_ahead).recommended_order =
      if 0 < (predicted_demand.take days_ahead).sum then
        pyRound ((predicted_demand.take days_ahead).sum *
          ((days_ahead : ℚ) + 2) / (days_ahead : ℚ))
      else 0 := by
  simp only [InventoryAwarePredictor.calculate_optimal_order_quantity, hfind, htc, hes]
  push_cast
  have hdq : (0 : ℚ) < (days_ahead : ℚ) := by exact_mod_cast hd
  set t := (predicted_demand.take days_ahead).sum with ht
  set a := t / (days_ahead : ℚ) with ha
  have hpy0 : pyRound 0 = 0 := by simp [pyRound]
  rcases lt_trichotomy t 0 with hneg | hzero | hpos
  · -- negative total: avg < 0, sentinel 999, high-waste-risk branch, order 0
    have havg : a < 0 := div_neg_of_neg_of_pos hneg hdq
    have hwr : max (0 : ℚ) (0 - a * 5) = 0 - a * 5 := max_eq_right (by linarith)
    rw [if_neg (by linarith : ¬a > 0), hwr]
    have hmax : max (0 : ℚ) (t - 0) = 0 := max_eq_left (by linarith)
    rw [hmax]
    split_ifs <;> first
      | (exfalso; linarith)
      | simp [hpy0]
  · -- zero total: avg = 0, sentinel 999, overstocked branch, order 0
    have havg : a = 0 := by rw [ha, hzero, zero_div]
    rw [if_neg (by rw [havg]; norm_num : ¬a > 0)]
    have hwr : max (0 : ℚ) (0 - a * 5) = 0 := max_eq_left (by rw [havg]; norm_num)
    rw [hwr]
    split_ifs <;> first
      | (exfalso; rw [havg] at *; linarith)
      | simp [hpy0]
  · -- positive total: avg > 0, critical-stock branch
    have havg : 0 < a := div_pos hpos hdq
    rw [if_pos havg]
    have hdoi : (0 : ℚ) / a = 0 := zero_div a
    rw [hdoi, if_pos (by norm_num : (0 : ℚ) < 3)]
    have hwr : max (0 : ℚ) (0 - a * 5) = 0 := max_eq_left (by linarith)
    rw [hwr, if_neg (by linarith : ¬(0 : ℚ) > a * 2), if_pos hpos]
    have hmax : max (0 : ℚ) (t - 0 + a * 2) = t + a * 2 := by
      rw [sub_zero]
      exact max_eq_right (by linarith)
    rw [hmax]
    congr 1
    rw [ha]
    field_simp
    ring

/-- C6 counterexample: with a zero-inventory snapshot and `days_ahead =
7`, forecast totals 10 and 10.1 both yield a recommended order of 13
(`round(10*9/7) = round(12.857) = 13 = round(12.986) = round(10.1*9/7)`),
so the returned `recommended_order` is not strictly increasing in the
forecast total. -/
theorem order_monotonicity_counterexample :
    ((10 : ℚ) < 101/10) ∧
    (InventoryAwarePredictor.calculate_optimal_order_quantity
      [⟨"Milk", "A", 10, 0⟩] "Milk" [(10 : ℚ)] 7).recommended_order = 13 ∧
    (InventoryAwarePredictor.calculate_optimal_order_quantity
      [⟨"Milk", "A", 10, 0⟩] "Milk" [(101/10 : ℚ)] 7).recommended_order = 13 := by
  refine ⟨by norm_num, ?_, ?_⟩
  · rw [zero_inventory_order_closed_form [⟨"Milk", "A", 10, 0⟩] "Milk" [(10 : ℚ)] 7
      ⟨0, 0, 0, 0, 0, [⟨"A", 0, 10⟩]⟩ (by norm_num) (by decide) rfl rfl]
    have hsum : (([(10 : ℚ)].take 7).sum) = 10 := by simp
    rw [hsum, if_pos (by norm_num : (0 : ℚ) < 10)]
    have he : (10 : ℚ) * (((7 : ℕ) : ℚ) + 2) / ((7 : ℕ) : ℚ) = 90/7 := by norm_num
    rw [he]
    have h1 : ⌊(90/7 : ℚ)⌋ = 12 := by
      rw [Int.floor_eq_iff]
      norm_num
    simp only [pyRound, h1]
    norm_num
  · rw [zero_inventory_order_closed_form [⟨"Milk", "A", 10, 0⟩] "Milk" [(101/10 : ℚ)] 7
      ⟨0, 0, 0, 0, 0, [⟨"A", 0, 10⟩]⟩ (by norm_num) (by decide) rfl rfl]
    have hsum : (([(101/10 : ℚ)].take 7).sum) = 101/10 := by simp
    rw [hsum, if_pos (by norm_num : (0 : ℚ) < 101/10)]
    have he : (101/10 : ℚ) * (((7 : ℕ) : ℚ) + 2) / ((7 : ℕ) : ℚ) = 909/70 := by norm_num
    rw [he]
    have h1 : ⌊(909/70 : ℚ)⌋ = 12 := by
      rw [Int.floor_eq_iff]
      norm_num
    simp only [pyRound, h1]
    norm_num

/-- C6 amended: for a fixed zero-inventory snapshot (product present
with 0 units on hand) and fixed `days_ahead > 0`, the returned
`recommended_order` is weakly increasing (monotone non-decreasing) in
the forecast total; strict increase fails because the returned quantity
is the Python-rounded integer. -/
theorem order_monotone_amended
    (inventory_data : List InventoryAwarePredictor.Batch) (product : String)
    (demand1 demand2 : List ℚ) (days_ahead : ℕ)
    (ci : InventoryAwarePredictor.ProductSummary)
    (hd : 0 < days_ahead)
    (hfind : InventoryAwarePredictor.findSummary
      (InventoryAwarePredictor.get_inventory_summary inventory_data) product = some ci)
    (htc : ci.total_quantity = 0) (hes : ci.expiring_soon = 0)
    (hle : (demand1.take days_ahead).sum ≤ (demand2.take days_ahead).sum) :
    (InventoryAwarePredictor.calculate_optimal_order_quantity
        inventory_data product demand1 days_ahead).recommended_order ≤
      (InventoryAwarePredictor.calculate_optimal_order_quantity
        inventory_data product demand2 days_ahead).recommended_order := by
  rw [zero_inventory_order_closed_form inventory_data product demand1 days_ahead ci
    hd hfind htc hes,
    zero_inventory_order_closed_form inventory_data product demand2 days_ahead ci
    hd hfind htc hes]
  have hdq : (0 : ℚ) < (days_ahead : ℚ) := by exact_mod_cast hd
  set t1 := (demand1.take days_ahead).sum with ht1
  set t2 := (demand2.take days_ahead).sum with ht2
  split_ifs with h1 h2 h2
  · exact pyRound_mono (by gcongr)
  · exfalso; linarith
  · exact pyRound_nonneg (by positivity)
  · exact le_refl 0

/-- C6 amended witness: zero-inventory snapshot, totals 5 and 10. -/
theorem order_monotone_amended_witness :
    0 < 7 ∧
    InventoryAwarePredictor.findSummary
      (InventoryAwarePredictor.get_inventory_summary [⟨"Milk", "A", 10, 0⟩]) "Milk" =
      some ⟨0, 0, 0, 0, 0, [⟨"A", 0, 10⟩]⟩ ∧
    (([(5 : ℚ)].take 7).sum ≤ ([(10 : ℚ)].take 7).sum) ∧
    (InventoryAwarePredictor.calculate_optimal_order_quantity
        [⟨"Milk", "A", 10, 0⟩] "Milk" [(5 : ℚ)] 7).recommended_order ≤
      (InventoryAwarePredictor.calculate_optimal_order_quantity
        [⟨"Milk", "A", 10, 0⟩] "Milk" [(10 : ℚ)] 7).recommended_order :=
  ⟨by norm_num, by decide, by simp; norm_num,
   order_monotone_amended [⟨"Milk", "A", 10, 0⟩] "Milk" [(5 : ℚ)] [(10 : ℚ)] 7
     ⟨0, 0, 0, 0, 0, [⟨"A", 0, 10⟩]⟩ (by norm_num) (by decide) rfl rfl
     (by simp; norm_num)⟩

/-- C7 counterexample: the claim says every error or malformed
(schema-nonconforming) service response triggers the deterministic
fallback and the request does not fail; but a response that parses as
JSON while missing the required schema fields carries no `"error"`
key, so `PricingInventoryAgent.analyze` reads the `needs_discount` key
from it and the request fails with a `KeyError` instead of returning
the fallback. -/
theorem fallback_on_malformed_counterexample :
    PricingInventoryAgent.analyzeDecision 1 5 0 ⟨none, none, none, none, none⟩ =
      Except.error "KeyError: needs_discount" ∧
    PricingInventoryAgent.analyzeDecision 1 5 0 ⟨none, none, none, none, none⟩ ≠
      Except.ok (PricingInventoryAgent.fallback_pricing_logic 1 5 0) :=
  ⟨rfl, by simp [PricingInventoryAgent.analyzeDecision]⟩

/-- C7 amended: whenever the service client reported an error (its
result dict has an `"error"` key: request failure, malformed API
envelope, or response text that is not valid JSON), the analysis
returns exactly the deterministic expiry-tiered fallback —
`days_until_expiry ≤ 2` gives (True, high, 30); `≤ 4` gives (True,
medium, 20); otherwise (False, none, 0) — and the request does not
fail; a response that is valid JSON but does not conform to the schema
is passed through and the analysis fails on the missing field. -/
theorem fallback_on_error_amended
    (days_until_expiry quantity : ℤ) (waste_rate : ℚ)
    (gemini : PricingInventoryAgent.GeminiResult)
    (herr : gemini.error.isSome) :
    PricingInventoryAgent.analyzeDecision days_until_expiry quantity waste_rate
      gemini = Except.ok
        (PricingInventoryAgent.fallback_pricing_logic days_until_expiry quantity
          waste_rate) ∧
    (days_until_expiry ≤ 2 →
      PricingInventoryAgent.fallback_pricing_logic days_until_expiry quantity
        waste_rate =
        ⟨true, "high", 30, "Expires in 2 days - urgent discount needed"⟩) ∧
    (2 < days_until_expiry → days_until_expiry ≤ 4 →
      PricingInventoryAgent.fallback_pricing_logic days_until_expiry quantity
        waste_rate =
        ⟨true, "medium", 20, "Approaching expiration - moderate discount recommended"⟩) ∧
    (4 < days_until_expiry →
      PricingInventoryAgent.fallback_pricing_logic days_until_expiry quantity
        waste_rate =
        ⟨false, "none", 0, "Sufficient time before expiration"⟩) := by
  refine ⟨?_, fun h2 => ?_, fun h2 h4 => ?_, fun h4 => ?_⟩
  · simp only [PricingInventoryAgent.analyzeDecision, if_pos herr]
  · simp only [PricingInventoryAgent.fallback_pricing_logic, if_pos h2]
  · simp only [PricingInventoryAgent.fallback_pricing_logic]
    rw [if_neg (by omega), if_pos h4]
  · simp only [PricingInventoryAgent.fallback_pricing_logic]
    rw [if_neg (by omega), if_neg (by omega)]

/-- C7 amended witness: an errored service response at 2 days to
expiry yields the (True, high, 30) fallback. -/
theorem fallback_on_error_amended_witness :
    (PricingInventoryAgent.GeminiResult.mk (some "Request failed: timeout")
      none none none none).error.isSome ∧
    (PricingInventoryAgent.analyzeDecision 2 8 10
        ⟨some "Request failed: timeout", none, none, none, none⟩ =
      Except.ok (PricingInventoryAgent.fallback_pricing_logic 2 8 10) ∧
    ((2 : ℤ) ≤ 2 →
      PricingInventoryAgent.fallback_pricing_logic 2 8 10 =
        ⟨true, "high", 30, "Expires in 2 days - urgent discount needed"⟩) ∧
    ((2 : ℤ) < 2 → (2 : ℤ) ≤ 4 →
      PricingInventoryAgent.fallback_pricing_logic 2 8 10 =
        ⟨true, "medium", 20, "Approaching expiration - moderate discount recommended"⟩) ∧
    ((4 : ℤ) < 2 →
      PricingInventoryAgent.fallback_pricing_logic 2 8 10 =
        ⟨false, "none", 0, "Sufficient time before expiration"⟩)) :=
  ⟨rfl,
   fallback_on_error_amended 2 8 10 ⟨some "Request failed: timeout", none, none,
     none, none⟩ rfl⟩

/-- C8: when the live weather fetch fails, `WeatherService.get_forecast`
swallows the failure and returns its own random in-service mock, so
`Database.get_prophet_prediction` takes the success path: the result is
the random mock sequence (not the deterministic 7-scenario cycle of
`generate_mock_weather_data`) labelled `"OpenWeather API"` — the
provenance field does not report the fallback. -/
theorem weather_provenance_bug :
    ∀ (e : String) (random_mock : List Weather.WeatherDay),
      Weather.selectWeather (Except.error e) random_mock =
        (random_mock, "OpenWeather API") :=
  fun _ _ => rfl

/-- A batch of a different product leaves the summary lookup of a
product unchanged. -/
theorem findSummary_updateSummary_ne
    (l : List (String × InventoryAwarePredictor.ProductSummary))
    (b : InventoryAwarePredictor.Batch) (product : String)
    (h : b.product ≠ product) :
    InventoryAwarePredictor.findSummary (InventoryAwarePredictor.updateSummary l b)
      product = InventoryAwarePredictor.findSummary l product := by
  induction l with
  | nil =>
    simp only [InventoryAwarePredictor.updateSummary,
      InventoryAwarePredictor.findSummary]
    rw [if_neg h]
  | cons p tl ih =>
    obtain ⟨k, v⟩ := p
    simp only [InventoryAwarePredictor.updateSummary]
    split_ifs with hk
    · simp only [InventoryAwarePredictor.findSummary]
      have hk2 : k ≠ product := by rw [hk]; exact h
      rw [if_neg hk2, if_neg hk2]
    · simp only [InventoryAwarePredictor.findSummary]
      split_ifs with hk2
      · rfl
      · exact ih

/-- Folding batches of other products never creates an entry for
`product`. -/
theorem findSummary_foldl_absent
    (inventory_data : List InventoryAwarePredictor.Batch)
    (acc : List (String × InventoryAwarePredictor.ProductSummary)) (product : String)
    (h : ∀ b ∈ inventory_data, b.product ≠ product) :
    InventoryAwarePredictor.findSummary
      (inventory_data.foldl InventoryAwarePredictor.updateSummary acc) product =
      InventoryAwarePredictor.findSummary acc product := by
  induction inventory_data generalizing acc with
  | nil => rfl
  | cons b tl ih =>
    rw [List.foldl_cons]
    rw [ih _ (fun x hx => h x (List.mem_cons_of_mem b hx))]
    exact findSummary_updateSummary_ne acc b product (h b (List.mem_cons_self b tl))

/-- C9: for every product absent from the inventory snapshot and every
predicted-demand sequence, the order recommender returns (and does not
raise) a recommendation with order 0, confidence "low" and reason
"No current inventory data". -/
theorem missing_product_zero_order
    (inventory_data : List InventoryAwarePredictor.Batch) (product : String)
    (predicted_demand : List ℚ) (days_ahead : ℕ)
    (habsent : ∀ b ∈ inventory_data, b.product ≠ product) :
    InventoryAwarePredictor.calculate_optimal_order_quantity
        inventory_data product predicted_demand days_ahead =
      { product := product, recommended_order := 0, confidence := "low"
        reason := "No current inventory data" } := by
  have hnone : InventoryAwarePredictor.findSummary
      (InventoryAwarePredictor.get_inventory_summary inventory_data) product = none := by
    rw [InventoryAwarePredictor.get_inventory_summary]
    rw [findSummary_foldl_absent inventory_data [] product habsent]
    rfl
  simp only [InventoryAwarePredictor.calculate_optimal_order_quantity, hnone]

/-- C9 witness: asking for Butter against a Milk-only snapshot. -/
theorem missing_product_zero_order_witness :
    (∀ b ∈ [InventoryAwarePredictor.Batch.mk "Milk" "A" 10 8], b.product ≠ "Butter") ∧
    InventoryAwarePredictor.calculate_optimal_order_quantity
        [⟨"Milk", "A", 10, 8⟩] "Butter" [(10 : ℚ), 12] 7 =
      { product := "Butter", recommended_order := 0, confidence := "low"
        reason := "No current inventory data" } :=
  ⟨by decide,
   missing_product_zero_order [⟨"Milk", "A", 10, 8⟩] "Butter" [(10 : ℚ), 12] 7
     (by decide)⟩

/-- Lemma: `addBatch` keeps the partition equations: it adds the
quantity of the batch to the total, to exactly one expiry bucket, and appends the
batch to the list. -/
theorem summary_partition_addBatch (s : InventoryAwarePredictor.ProductSummary)
    (b : InventoryAwarePredictor.Batch)
    (h1 : s.expired + s.expiring_soon + s.expiring_warning + s.expiring_good =
      s.total_quantity)
    (h2 : s.total_quantity =
      (s.batches.map InventoryAwarePredictor.BatchInfo.quantity).sum) :
    ((InventoryAwarePredictor.addBatch s b).expired +
        (InventoryAwarePredictor.addBatch s b).expiring_soon +
        (InventoryAwarePredictor.addBatch s b).expiring_warning +
        (InventoryAwarePredictor.addBatch s b).expiring_good =
      (InventoryAwarePredictor.addBatch s b).total_quantity) ∧
    ((InventoryAwarePredictor.addBatch s b).total_quantity =
      ((InventoryAwarePredictor.addBatch s b).batches.map
        InventoryAwarePredictor.BatchInfo.quantity).sum) := by
  simp only [InventoryAwarePredictor.addBatch]
  split_ifs <;>
    simp only [List.map_append, List.sum_append, List.map_cons, List.map_nil,
      List.sum_cons, List.sum_nil] <;>
    constructor <;> omega

/-- Lemma: `updateSummary` keeps the partition equations for every entry. -/
theorem summary_partition_updateSummary
    (l : List (String × InventoryAwarePredictor.ProductSummary))
    (b : InventoryAwarePredictor.Batch)
    (h : ∀ p ∈ l, p.2.expired + p.2.expiring_soon + p.2.expiring_warning +
        p.2.expiring_good = p.2.total_quantity ∧
      p.2.total_quantity =
        (p.2.batches.map InventoryAwarePredictor.BatchInfo.quantity).sum) :
    ∀ p ∈ InventoryAwarePredictor.updateSummary l b,
      p.2.expired + p.2.expiring_soon + p.2.expiring_warning + p.2.expiring_good =
        p.2.total_quantity ∧
      p.2.total_quantity =
        (p.2.batches.map InventoryAwarePredictor.BatchInfo.quantity).sum := by
  induction l with
  | nil =>
    intro p hp
    simp only [InventoryAwarePredictor.updateSummary, List.mem_singleton] at hp
    subst hp
    exact summary_partition_addBatch _ b (by simp [InventoryAwarePredictor.emptySummary])
      (by simp [InventoryAwarePredictor.emptySummary])
  | cons q tl ih =>
    intro p hp
    simp only [InventoryAwarePredictor.updateSummary] at hp
    split_ifs at hp with hk
    · rcases List.mem_cons.mp hp with hp1 | hp2
      · subst hp1
        exact summary_partition_addBatch _ b (h q (List.mem_cons_self q tl)).1
          (h q (List.mem_cons_self q tl)).2
      · exact h p (List.mem_cons_of_mem q hp2)
    · rcases List.mem_cons.mp hp with hp1 | hp2
      · subst hp1
        exact h q (List.mem_cons_self q tl)
      · exact ih (fun x hx => h x (List.mem_cons_of_mem q hx)) p hp2

/-- The fold over the inventory keeps the partition equations. -/
theorem summary_partition_foldl
    (inventory_data : List InventoryAwarePredictor.Batch)
    (acc : List (String × InventoryAwarePredictor.ProductSummary))
    (h : ∀ p ∈ acc, p.2.expired + p.2.expiring_soon + p.2.expiring_warning +
        p.2.expiring_good = p.2.total_quantity ∧
      p.2.total_quantity =
        (p.2.batches.map InventoryAwarePredictor.BatchInfo.quantity).sum) :
    ∀ p ∈ inventory_data.foldl InventoryAwarePredictor.updateSummary acc,
      p.2.expired + p.2.expiring_soon + p.2.expiring_warning + p.2.expiring_good =
        p.2.total_quantity ∧
      p.2.total_quantity =
        (p.2.batches.map InventoryAwarePredictor.BatchInfo.quantity).sum := by
  induction inventory_data generalizing acc with
  | nil => exact h
  | cons b tl ih =>
    rw [List.foldl_cons]
    exact ih _ (summary_partition_updateSummary acc b h)

/-- C10: for every inventory snapshot and every product entry of
`get_inventory_summary`, the four expiry buckets partition the stock:
`expired + expiring_soon + expiring_warning + expiring_good =
total_quantity`, and `total_quantity` equals the sum of the quantities
of the listed batches of the product. -/
theorem inventory_summary_partition
    (inventory_data : List InventoryAwarePredictor.Batch)
    (product : String) (s : InventoryAwarePredictor.ProductSummary)
    (hmem : (product, s) ∈ InventoryAwarePredictor.get_inventory_summary
      inventory_data) :
    s.expired + s.expiring_soon + s.expiring_warning + s.expiring_good =
      s.total_quantity ∧
    s.total_quantity =
      (s.batches.map InventoryAwarePredictor.BatchInfo.quantity).sum :=
  summary_partition_foldl inventory_data [] (fun p hp => absurd hp
    (List.not_mem_nil p)) (product, s) hmem

/-- C10 witness: a three-batch snapshot; the Milk entry has buckets
`0 + 8 + 20 + 0 = 28 = 8 + 20`. -/
theorem inventory_summary_partition_witness :
    (("Milk", InventoryAwarePredictor.ProductSummary.mk 28 8 20 0 0
        [⟨"A", 8, 3⟩, ⟨"B", 20, 10⟩]) ∈
      InventoryAwarePredictor.get_inventory_summary
        [⟨"Milk", "A", 3, 8⟩, ⟨"Milk", "B", 10, 20⟩, ⟨"Strawberries", "A", 3, 12⟩]) ∧
    ((0 : ℤ) + 8 + 20 + 0 = 28 ∧
      (28 : ℤ) = ([(⟨"A", 8, 3⟩ : InventoryAwarePredictor.BatchInfo),
        ⟨"B", 20, 10⟩].map InventoryAwarePredictor.BatchInfo.quantity).sum) :=
  ⟨by decide,
   inventory_summary_partition
     [⟨"Milk", "A", 3, 8⟩, ⟨"Milk", "B", 10, 20⟩, ⟨"Strawberries", "A", 3, 12⟩]
     "Milk" ⟨28, 8, 20, 0, 0, [⟨"A", 8, 3⟩, ⟨"B", 20, 10⟩]⟩ (by decide)⟩
